import Mathlib

set_option maxRecDepth 100000

/-!
Shallow embedding of the token-deployment HTTP service.  The repository holds
one named source file, `server.js`, plus two sibling iterations of the same
handler (referred to below as `p000` and `p001`).  Pure string manipulation and
the control flow of the `POST /deploy-token` handler are translated directly
from the JavaScript source.  External command executions are modelled by an
oracle `Nat → ExecResult` giving the captured streams and exit status of the
k-th command spawned by one request.
-/

/-- Does the character list `need` occur at the start of `hay`?
Helper for the embedding of JavaScript `String.prototype.includes`. -/
def startsList : List Char → List Char → Bool
  | _, [] => true
  | [], _ :: _ => false
  | a :: as, b :: bs => a == b && startsList as bs

/-- Does `need` occur anywhere inside `hay` (character lists)? -/
def subList : List Char → List Char → Bool
  | [], need => need.isEmpty
  | a :: t, need => startsList (a :: t) need || subList t need

/-- JavaScript `hay.includes(need)` (case-sensitive substring test), used by the
handler to classify tool stderr text (`server.js` lines 131, 154, 200-201,
269-270, 279, 336-337). -/
def strIncludes (hay need : String) : Bool :=
  subList hay.data need.data

/-- JavaScript whitespace test for `String.prototype.trim` (the characters that
actually occur in the modelled outputs). -/
def isWS (c : Char) : Bool :=
  c == ' ' || c == '\n' || c == '\t' || c == '\r'

/-- JavaScript `s.trim()`: strip leading and trailing whitespace. -/
def jsTrim (s : String) : String :=
  String.mk (((s.data.dropWhile isWS).reverse.dropWhile isWS).reverse)

/-- `cmd.replace(/"/g, '\\"')` (`server.js` lines 99, 123, 147, 173, ...):
escape every double quote with a backslash. -/
def escQuotesCh : List Char → List Char
  | [] => []
  | '"' :: rest => '\\' :: '"' :: escQuotesCh rest
  | c :: rest => c :: escQuotesCh rest

/-- String form of `escQuotesCh`. -/
def escQuotes (s : String) : String :=
  String.mk (escQuotesCh s.data)

/-- ``` `bash -lc "${cmd.replace(/"/g, '\\"')}"` ``` — the wrapper applied to
every step command before it is handed to `exec` (`server.js` line 99 etc). -/
def shellWrap (cmd : String) : String :=
  "bash -lc \"" ++ escQuotes cmd ++ "\""

/-- Hex-digit test mirroring the character class `[a-fA-F0-9]` of the regex in
`extractContractAddress` (`server.js` line 44). -/
def isHexDig (c : Char) : Bool :=
  (('0' ≤ c) && (c ≤ '9')) || (('a' ≤ c) && (c ≤ 'f')) || (('A' ≤ c) && (c ≤ 'F'))

/-- Attempt to match the regex `0x[a-fA-F0-9]{40}` at the head of the list:
`0x` followed by exactly forty hex digits (no boundary requirement after the
fortieth digit, exactly as the JavaScript regex). -/
def matchAddrAt : List Char → Option (List Char)
  | '0' :: 'x' :: rest =>
      let d := rest.take 40
      if d.length == 40 && d.all isHexDig then some ('0' :: 'x' :: d) else none
  | _ => none

/-- Leftmost-match scan of JavaScript `output.match(/(0x[a-fA-F0-9]{40})/)`:
try to match at each successive start position. -/
def scanAddr : List Char → Option (List Char)
  | [] => none
  | c :: cs =>
    match matchAddrAt (c :: cs) with
    | some a => some a
    | none => scanAddr cs

/-- `extractContractAddress` (`server.js` lines 43-47): first substring of the
output matching `0x[a-fA-F0-9]{40}`, or `null`. -/
def extractContractAddress (output : String) : Option String :=
  (scanAddr output.data).map (fun l => String.mk l)

/-- Specification-side characterization of the extractor (spec §4.3: "finds the
first 40-hex-digit, 0x-prefixed token in the combined output"): the result is
the match at the least start position at which the pattern matches, and `none`
exactly when no position matches. -/
def addrSpec (l : List Char) : Option (List Char) → Prop
  | some a => ∃ i, matchAddrAt (l.drop i) = some a ∧ ∀ j, j < i → matchAddrAt (l.drop j) = none
  | none => ∀ i, matchAddrAt (l.drop i) = none

/-- The scanner satisfies the leftmost-match characterization. -/
theorem scanAddr_addrSpec (l : List Char) : addrSpec l (scanAddr l) := by
  induction l with
  | nil =>
    intro i
    rw [List.drop_nil]
    rfl
  | cons c cs ih =>
    cases h : matchAddrAt (c :: cs) with
    | some a =>
      have hs : scanAddr (c :: cs) = some a := by simp [scanAddr, h]
      rw [hs]
      exact ⟨0, h, fun j hj => absurd hj (Nat.not_lt_zero j)⟩
    | none =>
      have hs : scanAddr (c :: cs) = scanAddr cs := by simp [scanAddr, h]
      rw [hs]
      cases h2 : scanAddr cs with
      | some a =>
        have hspec := ih
        rw [h2] at hspec
        obtain ⟨i, hi, hb⟩ := hspec
        refine ⟨i + 1, hi, fun j hj => ?_⟩
        cases j with
        | zero => exact h
        | succ k => exact hb k (Nat.lt_of_succ_lt_succ hj)
      | none =>
        have hspec := ih
        rw [h2] at hspec
        intro i
        cases i with
        | zero => exact h
        | succ k => exact hspec k

/-- `const initialSupplyWei = BigInt(initialSupply) * BigInt(10) ** BigInt(18);`
(`p000` line 274, `p001` lines 384-385 and 417).  JavaScript `BigInt` is exact
arbitrary-precision integer arithmetic, embedded as `Nat`. -/
def initialSupplyWei (initialSupply : Nat) : Nat :=
  initialSupply * 10 ^ 18

/-- C2: for every valid non-negative whole-number `initialSupply = w`, the
conversion to minimal base units yields exactly `w * 10^18`, computed with
exact integer (arbitrary-precision) arithmetic; in particular `w = 10^20`
(which overflows a 64-bit integer) is mapped exactly to `10^38`. -/
theorem C2_toMinimalUnits_exact :
    (∀ w : Nat, initialSupplyWei w = w * 10 ^ 18) ∧
    initialSupplyWei (10 ^ 20) = 10 ^ 38 ∧
    (10 : Nat) ^ 38 = 100000000000000000000000000000000000000 := by
  refine ⟨fun w => rfl, by norm_num [initialSupplyWei], by norm_num⟩

/-- C9: `extractContractAddress` returns the leftmost `0x`+40-hex-digit match
with no boundary check after the 40th digit: on an output whose first hex run
is a 64-hex-digit transaction hash appearing before the real 40-hex-digit
contract address, it returns the first 40 hex digits of the hash, not the
contract address that occurs later in the text. -/
theorem C9_extract_leftmost_no_boundary :
    (∀ l : List Char, addrSpec l (scanAddr l)) ∧
    extractContractAddress
        "tx 0xa1b2c3d4e5f6a7b8c9d0a1b2c3d4e5f6a7b8c9d0a1b2c3d4e5f6a7b8c9d0a1b2 deployed to 0x1111111111111111111111111111111111111111"
      = some "0xa1b2c3d4e5f6a7b8c9d0a1b2c3d4e5f6a7b8c9d0" ∧
    subList
        "tx 0xa1b2c3d4e5f6a7b8c9d0a1b2c3d4e5f6a7b8c9d0a1b2c3d4e5f6a7b8c9d0a1b2 deployed to 0x1111111111111111111111111111111111111111".data
        "0x1111111111111111111111111111111111111111".data = true ∧
    ("0xa1b2c3d4e5f6a7b8c9d0a1b2c3d4e5f6a7b8c9d0" : String)
      ≠ "0x1111111111111111111111111111111111111111" := by
  refine ⟨scanAddr_addrSpec, by decide, by decide, by decide⟩

/-- Result of one external command, as observed by `runCommand`
(`server.js` lines 27-40): `ok` is whether `exec` reported no error, `stdout`
and `stderr` are the captured streams, and `errMsg` is `error.message` of the
execution error when `ok = false` (unused otherwise). -/
structure ExecResult where
  ok : Bool
  stdout : String
  stderr : String
  errMsg : String
deriving DecidableEq

/-- A value thrown inside the handler's `try` block: either a rejected
`runCommand` promise (`{ error, stdout, stderr }`) or a thrown
`new Error(msg)`. -/
inductive Exc where
  | cmdFail (r : ExecResult)
  | jsError (msg : String)
deriving DecidableEq

/-- The JSON responses the `POST /deploy-token` handler can produce. -/
inductive Response where
  | badRequest (error : String)
  | configError (error : String)
  | parseError (error : String) (deployOutput : String)
  | pipelineError (e : Exc)
  | success (tokenAddress deployOutput activateOutput cacheOutput initOutput registerOutput : String)
deriving DecidableEq

/-- HTTP status code attached to each response shape
(`res.status(...)` calls in `server.js`). -/
def httpStatus : Response → Nat
  | .badRequest _ => 400
  | .configError _ => 500
  | .parseError _ _ => 500
  | .pipelineError _ => 500
  | .success _ _ _ _ _ _ => 200

/-- One external command dispatched by the handler: the full shell text handed
to `exec`, and whether the handler `await`ed its completion before building the
next step (`await runCommand(...)`) or dispatched it fire-and-forget
(`runCommand(...).catch(...)`, `p000` line 203). -/
structure Step where
  cmd : String
  awaited : Bool
deriving DecidableEq

/-- Deployment request body `{ name, symbol, initialSupply, factoryAddress }`
(`server.js` line 52).  `initialSupply` is the whole-unit supply as a
non-negative integer; `factoryAddress` is the optional string field. -/
structure Request where
  name : String
  symbol : String
  initialSupply : Nat
  factoryAddress : Option String

/-- Process environment as used by the handler: `PRIVATE_KEY`, `RPC_ENDPOINT`
(empty string models unset/empty, both falsy) and the optional
`FACTORY_ADDRESS` variable. -/
structure Env where
  privateKey : String
  rpcEndpoint : String
  factoryAddressEnv : Option String

/-- Working directories of the two contract projects
(`server.js` lines 84-86). -/
structure Config where
  erc20Dir : String
  factoryDir : String

/-- `const FACTORY_ADDRESS = "0xed088..."` (`server.js` line 9). -/
def FACTORY_ADDRESS : String := "0xed088fd93517b0d0c3a3e4d2e2c419fb58570556"

/-- Truthiness of the optional string fields: present and non-empty. -/
def jsTruthyOpt : Option String → Bool
  | none => false
  | some s => !(s == "")

/-- Factory-address resolution (`server.js` lines 54-61): explicit body param
if truthy, else the `FACTORY_ADDRESS` environment variable if truthy, else the
compiled-in constant. -/
def resolveFactoryAddress (body envv : Option String) : String :=
  if jsTruthyOpt body then body.getD ""
  else if jsTruthyOpt envv then envv.getD ""
  else FACTORY_ADDRESS

/-- The resolved factory address is never the empty string. -/
theorem resolveFactoryAddress_ne_empty (body envv : Option String) :
    ¬(resolveFactoryAddress body envv = "") := by
  unfold resolveFactoryAddress
  cases body with
  | none =>
    cases envv with
    | none => simp [jsTruthyOpt, FACTORY_ADDRESS]
    | some e =>
      by_cases he : e = "" <;> simp [jsTruthyOpt, he, FACTORY_ADDRESS]
  | some b =>
    by_cases hb : b = "" <;>
      cases envv with
      | none => simp [jsTruthyOpt, hb, FACTORY_ADDRESS]
      | some e => by_cases he : e = "" <;> simp [jsTruthyOpt, hb, he, FACTORY_ADDRESS]

/-- `deployCmd` (`server.js` lines 91-97) after template-literal line
continuations and `.trim()`; the `dir.replace(/\\/g, "/")` path normalization
is a no-op for the slash-free directory names modelled here. -/
def deployCmd (erc20Dir pk rpc : String) : String :=
  "cd \"" ++ erc20Dir ++ "\" && cargo stylus deploy   --private-key=\"" ++ pk ++
    "\"   --endpoint=\"" ++ rpc ++ "\"   --no-verify   --max-fee-per-gas-gwei 0.1"

/-- `activateCmd` (`server.js` lines 115-121) and `factoryActivateCmd`
(`server.js` lines 182-188): the same template applied to a directory and an
address. -/
def activateCmd (dir addr pk rpc : String) : String :=
  "cd \"" ++ dir ++ "\" && cargo stylus activate   --address " ++ addr ++
    "   --private-key=\"" ++ pk ++ "\"   --endpoint=\"" ++ rpc ++
    "\"   --max-fee-per-gas-gwei 0.1"

/-- `cacheCmd` (`server.js` lines 139-145). -/
def cacheCmd (dir addr pk rpc : String) : String :=
  "cd \"" ++ dir ++ "\" && cargo stylus cache bid   " ++ addr ++
    " 1   --private-key=\"" ++ pk ++ "\"   --endpoint=\"" ++ rpc ++
    "\"   --max-fee-per-gas-gwei 0.1"

/-- `initCmd` (`server.js` lines 163-171): `cast send` of
`init(string,string,uint256)` with name, symbol and the raw whole-unit
`initialSupply`. -/
def initCmd (dir pk rpc tokenAddress name symbol : String) (initialSupply : Nat) : String :=
  "cd \"" ++ dir ++ "\" && cast send   --private-key=\"" ++ pk ++
    "\"   --rpc-url \"" ++ rpc ++ "\"   --max-fee-per-gas 0.2gwei   " ++ tokenAddress ++
    "   \"init(string,string,uint256)\"   \"" ++ name ++ "\" \"" ++ symbol ++ "\" " ++
    toString initialSupply

/-- `codeCheckCmd` (`server.js` lines 211-212). -/
def codeCheckCmd (fa rpc : String) : String :=
  "cast code " ++ fa ++ " --rpc-url \"" ++ rpc ++ "\""

/-- `testCallCmd` (`server.js` lines 228-229). -/
def testCallCmd (fa rpc : String) : String :=
  "cast call " ++ fa ++ " \"get_total_tokens_deployed()\" --rpc-url \"" ++ rpc ++ "\""

/-- `checkTokenCmd` (`server.js` lines 249-254). -/
def checkTokenCmd (rpc fa tokenAddress : String) : String :=
  "cast call   --rpc-url \"" ++ rpc ++ "\"   " ++ fa ++
    "   \"get_token_info(address)\"   " ++ tokenAddress

/-- `simulateCmd` (`server.js` lines 289-294): `cast call` of `register_token`
with the raw whole-unit supply. -/
def simulateCmd (rpc fa tokenAddress name symbol : String) (initialSupply : Nat) : String :=
  "cast call   --rpc-url \"" ++ rpc ++ "\"   " ++ fa ++
    "   \"register_token(address,string,string,uint256)\"   " ++ tokenAddress ++
    " \"" ++ name ++ "\" \"" ++ symbol ++ "\" " ++ toString initialSupply

/-- `registerCmd` (`server.js` lines 311-318): `cast send` of `register_token`
with the raw whole-unit `initialSupply` — `server.js` performs no base-unit
conversion before registration. -/
def registerCmd (pk rpc fa tokenAddress name symbol : String) (initialSupply : Nat) : String :=
  "cast send   --private-key=\"" ++ pk ++ "\"   --rpc-url \"" ++ rpc ++
    "\"   --max-fee-per-gas 0.2gwei   " ++ fa ++
    "   \"register_token(address,string,string,uint256)\"   " ++ tokenAddress ++
    " \"" ++ name ++ "\" \"" ++ symbol ++ "\" " ++ toString initialSupply

/-- `initCmd` of the `p000` iteration (lines 164-171): identical to the
`server.js` one except that no `--max-fee-per-gas` flag is passed. -/
def p000_initCmd (dir pk rpc tokenAddress name symbol : String) (initialSupply : Nat) : String :=
  "cd \"" ++ dir ++ "\" && cast send   --private-key=\"" ++ pk ++
    "\"   --rpc-url \"" ++ rpc ++ "\"   " ++ tokenAddress ++
    "   \"init(string,string,uint256)\"   \"" ++ name ++ "\" \"" ++ symbol ++ "\" " ++
    toString initialSupply

/-- `registerCmd` of the `p000` iteration (lines 277-283): the supply argument
is `initialSupplyWei`, i.e. the whole-unit supply already converted to base
units. -/
def p000_registerCmd (pk rpc fa tokenAddress name symbol : String) (initialSupplyWeiArg : Nat) : String :=
  "cast send   --private-key=\"" ++ pk ++ "\"   --rpc-url \"" ++ rpc ++
    "\"   " ++ fa ++
    "   \"register_token(address,string,string,uint256)\"   " ++ tokenAddress ++
    " \"" ++ name ++ "\" \"" ++ symbol ++ "\" " ++ toString initialSupplyWeiArg

/-- `registerCmd` of the `p001` iteration (lines 420-426): textually the same
template as the `p000` one, again taking the base-unit quantity. -/
def p001_registerCmd (pk rpc fa tokenAddress name symbol : String) (initialSupplyWeiArg : Nat) : String :=
  "cast send   --private-key=\"" ++ pk ++ "\"   --rpc-url \"" ++ rpc ++
    "\"   " ++ fa ++
    "   \"register_token(address,string,string,uint256)\"   " ++ tokenAddress ++
    " \"" ++ name ++ "\" \"" ++ symbol ++ "\" " ++ toString initialSupplyWeiArg

/-- Split a character list on every space character. -/
def splitOnSpace : List Char → List (List Char)
  | [] => [[]]
  | c :: rest =>
    let f := splitOnSpace rest
    if c = ' ' then [] :: f
    else (c :: f.headD []) :: f.tail

/-- Last space-separated token of a command string (used to read off the
quantity argument that a built command embeds). -/
def lastTok (s : String) : String :=
  String.mk ((splitOnSpace s.data).getLastD [])

/-- Token-activation step handling (`server.js` lines 124-136): a successful
run keeps its streams; a failed run whose stderr contains `"ProgramUpToDate"`
is absorbed with empty captured stdout; any other failure is rethrown. -/
def activateStep (r : ExecResult) : Except Exc (String × String) :=
  if r.ok then Except.ok (r.stdout, r.stderr)
  else if strIncludes r.stderr "ProgramUpToDate" then Except.ok ("", r.stderr)
  else Except.error (Exc.cmdFail r)

/-- Cache-bid step handling (`server.js` lines 148-159): a failed run whose
stderr contains `"already cached"` is absorbed with empty captured stdout; any
other failure is rethrown. -/
def cacheStep (r : ExecResult) : Except Exc (String × String) :=
  if r.ok then Except.ok (r.stdout, r.stderr)
  else if strIncludes r.stderr "already cached" then Except.ok ("", r.stderr)
  else Except.error (Exc.cmdFail r)

/-- Message of the error thrown when the factory code check yields no code
(`server.js` lines 222-224). -/
def noCodeMsg (fa : String) : String :=
  "Factory contract has no code at address " ++ (fa ++ ". Contract may not be deployed.")

/-- Message of the wrapping error rethrown by the factory verification block
(`server.js` lines 240-244); `inner` is `err.message || err.stderr || err.stdout`
of the caught value. -/
def factoryVerifyFailMsg (fa inner : String) : String :=
  "Factory contract verification failed at " ++
    (fa ++ (": " ++ (inner ++ ". Please ensure the factory contract is deployed and activated.")))

/-- Message of the duplicate-registration error (`server.js` lines 272-275). -/
def alreadyRegisteredMsg (tokenAddress : String) : String :=
  "Token " ++ (tokenAddress ++ " is already registered in factory. Cannot register the same token twice.")

/-- Message of the detailed registration-failure error
(`server.js` lines 324-350), built from the rejected `runCommand` value. -/
def registerFailMsg (fa tokenAddress name symbol : String) (initialSupply : Nat)
    (r : ExecResult) : String :=
  let decoded0 := if r.stderr ≠ "" then r.stderr else r.stdout
  let decoded :=
    if strIncludes decoded0 "execution reverted" && strIncludes decoded0 "InvalidInput" then
      decoded0 ++ " - Possible causes: token already registered, invalid parameters, or zero values"
    else decoded0
  "Token registration FAILED (required step). Factory: " ++ fa ++ ", Token: " ++ tokenAddress ++
    ", Name: \"" ++ name ++ "\", Symbol: \"" ++ symbol ++ "\", Supply: " ++
    toString initialSupply ++ ". Error: " ++ r.errMsg ++ ". Decoded: " ++ decoded

/-- The `POST /deploy-token` handler of `server.js` (lines 51-374).  `o k` is
the outcome of the k-th external command the handler spawns; the returned list
records, in dispatch order, the shell text of every spawned command and whether
its completion was awaited before the handler went on (in `server.js` every
command is awaited).  Real-time effects (none in this iteration) aside, the
translation follows the source's control flow statement by statement. -/
def sjsHandler (cfg : Config) (req : Request) (env : Env) (o : Nat → ExecResult) :
    Response × List Step :=
  let fa := resolveFactoryAddress req.factoryAddress env.factoryAddressEnv
  if req.name = "" ∨ req.symbol = "" ∨ req.initialSupply = 0 then
    (Response.badRequest "name, symbol and initialSupply are required", [])
  else if env.privateKey = "" ∨ env.rpcEndpoint = "" then
    (Response.configError "PRIVATE_KEY and RPC_ENDPOINT must be set as environment variables", [])
  else
    let pk := env.privateKey
    let rpc := env.rpcEndpoint
    let r0 := o 0
    let t0 := [Step.mk (shellWrap (deployCmd cfg.erc20Dir pk rpc)) true]
    if r0.ok = false then (Response.pipelineError (Exc.cmdFail r0), t0)
    else
      let deployOutput := r0.stdout ++ "\n" ++ r0.stderr
      match extractContractAddress deployOutput with
      | none =>
          (Response.parseError
            "Failed to parse deployed token contract address from deploy output" deployOutput, t0)
      | some tokenAddress =>
        let r1 := o 1
        let t1 := t0 ++ [Step.mk (shellWrap (activateCmd cfg.erc20Dir tokenAddress pk rpc)) true]
        match activateStep r1 with
        | Except.error e => (Response.pipelineError e, t1)
        | Except.ok act =>
          let r2 := o 2
          let t2 := t1 ++ [Step.mk (shellWrap (cacheCmd cfg.erc20Dir tokenAddress pk rpc)) true]
          match cacheStep r2 with
          | Except.error e => (Response.pipelineError e, t2)
          | Except.ok cac =>
            let r3 := o 3
            let t3 := t2 ++
              [Step.mk (shellWrap (initCmd cfg.erc20Dir pk rpc tokenAddress req.name req.symbol req.initialSupply)) true]
            if r3.ok = false then (Response.pipelineError (Exc.cmdFail r3), t3)
            else
              if fa = "" then
                (Response.pipelineError (Exc.jsError "factoryAddress is required for token registration"), t3)
              else
                -- factory activation: failure is only logged, never fatal
                let t4 := t3 ++ [Step.mk (shellWrap (activateCmd cfg.factoryDir fa pk rpc)) true]
                let r5 := o 5
                let t5 := t4 ++ [Step.mk (shellWrap (codeCheckCmd fa rpc)) true]
                if r5.ok = false then
                  (Response.pipelineError (Exc.jsError
                    (factoryVerifyFailMsg fa (if r5.stderr ≠ "" then r5.stderr else r5.stdout))), t5)
                else
                  let codeOutput := jsTrim (r5.stdout ++ "\n" ++ r5.stderr)
                  if codeOutput = "" ∨ codeOutput = "0x" ∨ codeOutput.length ≤ 2 then
                    (Response.pipelineError (Exc.jsError (factoryVerifyFailMsg fa (noCodeMsg fa))), t5)
                  else
                    -- view-function probe: failure is only logged
                    let t6 := t5 ++ [Step.mk (shellWrap (testCallCmd fa rpc)) true]
                    let r7 := o 7
                    let t7 := t6 ++ [Step.mk (shellWrap (checkTokenCmd rpc fa tokenAddress)) true]
                    let checkOutput := r7.stdout ++ "\n" ++ r7.stderr
                    if r7.ok &&
                        !(strIncludes checkOutput "TokenNotFound") &&
                        !(strIncludes checkOutput "error") then
                      (Response.pipelineError (Exc.jsError (alreadyRegisteredMsg tokenAddress)), t7)
                    else
                      -- simulation: failure is only logged
                      let t8 := t7 ++
                        [Step.mk (shellWrap (simulateCmd rpc fa tokenAddress req.name req.symbol req.initialSupply)) true]
                      let r9 := o 9
                      let t9 := t8 ++
                        [Step.mk (shellWrap (registerCmd pk rpc fa tokenAddress req.name req.symbol req.initialSupply)) true]
                      if r9.ok = false then
                        (Response.pipelineError (Exc.jsError
                          (registerFailMsg fa tokenAddress req.name req.symbol req.initialSupply r9)), t9)
                      else
                        (Response.success tokenAddress deployOutput
                          (act.1 ++ "\n" ++ act.2) (cac.1 ++ "\n" ++ cac.2)
                          (r3.stdout ++ "\n" ++ r3.stderr) (r9.stdout ++ "\n" ++ r9.stderr), t9)

/-- Message of the detailed registration-failure error of the `p000` iteration
(lines 298-327): it appends a fixed possible-causes list whenever the captured
error text mentions `execution reverted`. -/
def p000_registerFailMsg (fa tokenAddress name symbol : String) (initialSupply : Nat)
    (r : ExecResult) : String :=
  let decoded0 := if r.stderr ≠ "" then r.stderr else r.stdout
  let decoded :=
    if strIncludes decoded0 "execution reverted" then
      decoded0 ++ "\nPossible causes:\n1. Token already registered in factory\n2. Invalid parameters (empty name/symbol, zero supply, zero address)\n3. Factory contract not properly activated\n4. Token contract not fully initialized"
    else decoded0
  "Token registration FAILED (required step). Factory: " ++ fa ++ ", Token: " ++ tokenAddress ++
    ", Name: \"" ++ name ++ "\", Symbol: \"" ++ symbol ++ "\", Supply: " ++
    toString initialSupply ++ ". Error: " ++ r.errMsg ++ ". \nDetails: " ++ decoded

/-- The `POST /deploy-token` handler of the `p000` iteration (lines 51-351).
Differences from `server.js`: the token `init` and `register` commands carry no
explicit gas-fee flag, a fixed 2-second sleep follows initialization (a pure
real-time effect, no command), the factory-activation command is dispatched
fire-and-forget (`runCommand(...).catch(...)`, line 203: the handler does NOT
await it, recorded as `awaited := false`), the factory code check is advisory
(any failure, including the 5-second timeout of the `Promise.race`, and the
no-code condition are caught, logged and execution continues, lines 217-235),
the already-registered pre-check of `server.js` is skipped entirely (lines
237-238), parameter validations are re-done, and the registration quantity is
`initialSupplyWei` (line 274). The 60-second registration timeout rejection is
modelled as a failing command result. -/
def p000Handler (cfg : Config) (req : Request) (env : Env) (o : Nat → ExecResult) :
    Response × List Step :=
  let fa := resolveFactoryAddress req.factoryAddress env.factoryAddressEnv
  if req.name = "" ∨ req.symbol = "" ∨ req.initialSupply = 0 then
    (Response.badRequest "name, symbol and initialSupply are required", [])
  else if env.privateKey = "" ∨ env.rpcEndpoint = "" then
    (Response.configError "PRIVATE_KEY and RPC_ENDPOINT must be set as environment variables", [])
  else
    let pk := env.privateKey
    let rpc := env.rpcEndpoint
    let r0 := o 0
    let t0 := [Step.mk (shellWrap (deployCmd cfg.erc20Dir pk rpc)) true]
    if r0.ok = false then (Response.pipelineError (Exc.cmdFail r0), t0)
    else
      let deployOutput := r0.stdout ++ "\n" ++ r0.stderr
      match extractContractAddress deployOutput with
      | none =>
          (Response.parseError
            "Failed to parse deployed token contract address from deploy output" deployOutput, t0)
      | some tokenAddress =>
        let r1 := o 1
        let t1 := t0 ++ [Step.mk (shellWrap (activateCmd cfg.erc20Dir tokenAddress pk rpc)) true]
        match activateStep r1 with
        | Except.error e => (Response.pipelineError e, t1)
        | Except.ok act =>
          let r2 := o 2
          let t2 := t1 ++ [Step.mk (shellWrap (cacheCmd cfg.erc20Dir tokenAddress pk rpc)) true]
          match cacheStep r2 with
          | Except.error e => (Response.pipelineError e, t2)
          | Except.ok cac =>
            let r3 := o 3
            let t3 := t2 ++
              [Step.mk (shellWrap (p000_initCmd cfg.erc20Dir pk rpc tokenAddress req.name req.symbol req.initialSupply)) true]
            if r3.ok = false then (Response.pipelineError (Exc.cmdFail r3), t3)
            else
              -- 2-second sleep: pure passage of time, no observable effect here
              if fa = "" then
                (Response.pipelineError (Exc.jsError "factoryAddress is required for token registration"), t3)
              else
                -- fire-and-forget factory activation: dispatched, NOT awaited
                let t4 := t3 ++ [Step.mk (shellWrap (activateCmd cfg.factoryDir fa pk rpc)) false]
                -- advisory code check: every outcome (failure, timeout, empty
                -- or bare-0x code) is caught, logged and execution continues
                let t5 := t4 ++ [Step.mk (shellWrap (codeCheckCmd fa rpc)) true]
                if tokenAddress = "0x0000000000000000000000000000000000000000" then
                  (Response.pipelineError (Exc.jsError "Invalid token address: cannot be zero address"), t5)
                else if (jsTrim req.name).length = 0 then
                  (Response.pipelineError (Exc.jsError "Invalid name: cannot be empty"), t5)
                else if (jsTrim req.symbol).length = 0 then
                  (Response.pipelineError (Exc.jsError "Invalid symbol: cannot be empty"), t5)
                else if req.initialSupply = 0 then
                  (Response.pipelineError (Exc.jsError "Invalid initial supply: cannot be zero"), t5)
                else
                  let wei := initialSupplyWei req.initialSupply
                  let r6 := o 6
                  let t6 := t5 ++
                    [Step.mk (shellWrap (p000_registerCmd pk rpc fa tokenAddress req.name req.symbol wei)) true]
                  if r6.ok = false then
                    (Response.pipelineError (Exc.jsError
                      (p000_registerFailMsg fa tokenAddress req.name req.symbol req.initialSupply r6)), t6)
                  else
                    (Response.success tokenAddress deployOutput
                      (act.1 ++ "\n" ++ act.2) (cac.1 ++ "\n" ++ cac.2)
                      (r3.stdout ++ "\n" ++ r3.stderr) (r6.stdout ++ "\n" ++ r6.stderr), t6)

/-- Oracle built from a finite script of command results. -/
def oracleOf (script : List ExecResult) (dflt : ExecResult) : Nat → ExecResult :=
  fun k => script.getD k dflt

/-- Simplified POSIX shell field splitter, modelling how `bash` breaks a
single-line command into words: space separates words, double quotes group,
and inside double quotes a backslash escapes `"` and `\`; outside quotes a
backslash escapes the following character.  (Substitution characters such as
`$` are treated as ordinary text; the model is only used to ask whether a
parameter survives as one literal word.)  Returns `none` on an unterminated
double quote.  Arguments: remaining input, inside-double-quote flag,
word-started flag, current word, accumulated words. -/
def shSplitCore : List Char → Bool → Bool → List Char → List String → Option (List String)
  | [], inQ, started, cur, acc =>
    if inQ then none
    else if started then some (acc ++ [String.mk cur]) else some acc
  | '"' :: rest, inQ, _, cur, acc => shSplitCore rest (!inQ) true cur acc
  | '\\' :: '"' :: rest, inQ, _, cur, acc => shSplitCore rest inQ true (cur ++ ['"']) acc
  | '\\' :: '\\' :: rest, inQ, _, cur, acc => shSplitCore rest inQ true (cur ++ ['\\']) acc
  | ' ' :: rest, true, _, cur, acc => shSplitCore rest true true (cur ++ [' ']) acc
  | ' ' :: rest, false, started, cur, acc =>
    if started then shSplitCore rest false false [] (acc ++ [String.mk cur])
    else shSplitCore rest false false [] acc
  | '\\' :: c :: rest, false, _, cur, acc => shSplitCore rest false true (cur ++ [c]) acc
  | '\\' :: c :: rest, true, _, cur, acc => shSplitCore rest true true (cur ++ ['\\', c]) acc
  | c :: rest, inQ, _, cur, acc => shSplitCore rest inQ true (cur ++ [c]) acc

/-- Field split of a full command string. -/
def shSplit (s : String) : Option (List String) :=
  shSplitCore s.data false false [] []

/-- C1: `server.js` embeds the raw whole-unit `initialSupply` in the factory
`register_token` command — the same number its `init` command sends to the
token, whose initializer scales by `10^18` internally — while the claimed
invariant (and the `p001` iteration, via `initialSupplyWei`) requires the
registration quantity `initialSupply * 10^18`.  At `initialSupply = 1000` the
`server.js` register command carries `1000`, not `1000 * 10^18`. -/
theorem C1_register_quantity_mismatch :
    lastTok (initCmd "erc20-token" "PK" "RPC" "0xT" "Test" "TST" 1000) = "1000" ∧
    lastTok (registerCmd "PK" "RPC" "0xF" "0xT" "Test" "TST" 1000) = "1000" ∧
    lastTok (p001_registerCmd "PK" "RPC" "0xF" "0xT" "Test" "TST" (initialSupplyWei 1000))
      = "1000000000000000000000" ∧
    initialSupplyWei 1000 = 1000 * 10 ^ 18 ∧
    ("1000" : String) ≠ "1000000000000000000000" := by
  refine ⟨by decide, by decide, by decide, by norm_num [initialSupplyWei], by decide⟩

/-- C8: the command construction does NOT pass `name` as a single literal
argument.  The handler only escapes double quotes once, for the outer
`bash -lc "..."` wrapper, so the inner `bash` recovers `name`'s characters as
raw shell text.  With the benign name `MyToken` the init command parses with
`MyToken` as one word; with the name `A"; rm -rf x; "B` the outer wrapper still
hands the inner command through intact, but the inner command parses into
words in which the name's content has terminated the quoting and produced the
separate command words `rm` and `-rf`; with the name `A" B` the inner command
is not even well-formed (unterminated quote). -/
theorem C8_shell_quoting_breaks :
    shSplit (initCmd "erc20-token" "PK" "RPC" "0xT" "MyToken" "TST" 5) =
      some ["cd", "erc20-token", "&&", "cast", "send", "--private-key=PK", "--rpc-url", "RPC",
        "--max-fee-per-gas", "0.2gwei", "0xT", "init(string,string,uint256)",
        "MyToken", "TST", "5"] ∧
    shSplit (shellWrap (initCmd "erc20-token" "PK" "RPC" "0xT" "A\"; rm -rf x; \"B" "TST" 5)) =
      some ["bash", "-lc", initCmd "erc20-token" "PK" "RPC" "0xT" "A\"; rm -rf x; \"B" "TST" 5] ∧
    shSplit (initCmd "erc20-token" "PK" "RPC" "0xT" "A\"; rm -rf x; \"B" "TST" 5) =
      some ["cd", "erc20-token", "&&", "cast", "send", "--private-key=PK", "--rpc-url", "RPC",
        "--max-fee-per-gas", "0.2gwei", "0xT", "init(string,string,uint256)",
        "A;", "rm", "-rf", "x;", "B", "TST", "5"] ∧
    shSplit (initCmd "erc20-token" "PK" "RPC" "0xT" "A\" B" "TST" 5) = none := by
  refine ⟨by decide, by decide, by decide, by decide⟩

/-- Successful command result with the given streams. -/
def okR (out err : String) : ExecResult := ⟨true, out, err, ""⟩

/-- Failed command result with the given streams and error message. -/
def failR (out err msg : String) : ExecResult := ⟨false, out, err, msg⟩

/-- Shared concrete configuration for the scenario runs. -/
def cfgW : Config := ⟨"erc20-token", "token-factory"⟩

/-- Shared concrete request for the scenario runs. -/
def reqW : Request := ⟨"Test", "TST", 1000, none⟩

/-- Shared concrete environment for the scenario runs. -/
def envW : Env := ⟨"PK", "RPC", none⟩

/-- Shell texts of a dispatched step list. -/
def cmdsOf (l : List Step) : List String := l.map (fun s => s.cmd)

/-- Awaited flags of a dispatched step list. -/
def awaitedOf (l : List Step) : List Bool := l.map (fun s => s.awaited)

/-- Is every dispatched command awaited before the handler continues? -/
def allAwaited (l : List Step) : Bool := l.all (fun s => s.awaited)

/-- C3: when the deploy tool exits with status zero but no `0x`+40-hex-digit
address can be extracted from its combined output, `server.js` answers HTTP
500 with the parse-failure error and the deploy output, and no further step is
dispatched (the step trace holds exactly the one deploy command). -/
theorem C3_deploy_parse_failure_aborts
    (cfg : Config) (req : Request) (env : Env) (o : Nat → ExecResult)
    (hn : ¬(req.name = "")) (hs : ¬(req.symbol = "")) (hi : ¬(req.initialSupply = 0))
    (hpk : ¬(env.privateKey = "")) (hrpc : ¬(env.rpcEndpoint = ""))
    (h0 : (o 0).ok = true)
    (hex : extractContractAddress ((o 0).stdout ++ "\n" ++ (o 0).stderr) = none) :
    sjsHandler cfg req env o =
      (Response.parseError "Failed to parse deployed token contract address from deploy output"
          ((o 0).stdout ++ "\n" ++ (o 0).stderr),
        [Step.mk (shellWrap (deployCmd cfg.erc20Dir env.privateKey env.rpcEndpoint)) true]) ∧
    httpStatus (sjsHandler cfg req env o).1 = 500 := by
  have main : sjsHandler cfg req env o =
      (Response.parseError "Failed to parse deployed token contract address from deploy output"
          ((o 0).stdout ++ "\n" ++ (o 0).stderr),
        [Step.mk (shellWrap (deployCmd cfg.erc20Dir env.privateKey env.rpcEndpoint)) true]) := by
    simp [sjsHandler, hn, hs, hi, hpk, hrpc, h0, hex]
  exact ⟨main, by rw [main]; rfl⟩

/-- Oracle for the C3 witness: deploy "succeeds" but prints no address. -/
def oC3 : Nat → ExecResult := oracleOf [okR "Finished release build; no address printed" ""] (okR "" "")

/-- Witness instantiating `C3_deploy_parse_failure_aborts` on a concrete run. -/
theorem C3_witness :
    sjsHandler cfgW reqW envW oC3 =
      (Response.parseError "Failed to parse deployed token contract address from deploy output"
          ((oC3 0).stdout ++ "\n" ++ (oC3 0).stderr),
        [Step.mk (shellWrap (deployCmd cfgW.erc20Dir envW.privateKey envW.rpcEndpoint)) true]) ∧
    httpStatus (sjsHandler cfgW reqW envW oC3).1 = 500 :=
  C3_deploy_parse_failure_aborts cfgW reqW envW oC3 (by decide) (by decide) (by decide)
    (by decide) (by decide) (by decide) (by decide)

deriving instance DecidableEq for Except

/-- C4 counterexample: the code's benign pattern for the token-activation step
is the substring `"ProgramUpToDate"` (`server.js` line 131), not the phrases
named by the claim: a non-zero activation exit whose stderr says
"already up to date" or "already activated" is classified fatal and rethrown,
not treated as benign with empty captured output. -/
theorem C4_counterexample :
    activateStep ⟨false, "", "program already up to date", "exit 1"⟩
      = Except.error (Exc.cmdFail ⟨false, "", "program already up to date", "exit 1"⟩) ∧
    activateStep ⟨false, "", "token already activated", "exit 1"⟩
      = Except.error (Exc.cmdFail ⟨false, "", "token already activated", "exit 1"⟩) ∧
    strIncludes "token already activated" "already activated" = true ∧
    strIncludes "program already up to date" "already up to date" = true := by
  refine ⟨by decide, by decide, by decide, by decide⟩

/-- C4 (amended): the token-activation step of `server.js` absorbs a non-zero
exit precisely when its stderr contains `"ProgramUpToDate"`, continuing with
empty captured stdout, and rethrows every other failure; the cache-bid step
does the same for `"already cached"`.  In the pipeline, a benign activation
failure leaves the later steps running (here shown through to the success
response, whose activation output field carries the empty stdout), while a
non-benign activation failure aborts the request with the activation failure
after exactly the deploy and activate commands. -/
theorem C4_amended_benign_patterns :
    (∀ r : ExecResult, r.ok = false → strIncludes r.stderr "ProgramUpToDate" = true →
        activateStep r = Except.ok ("", r.stderr)) ∧
    (∀ r : ExecResult, r.ok = false → strIncludes r.stderr "ProgramUpToDate" = false →
        activateStep r = Except.error (Exc.cmdFail r)) ∧
    (∀ r : ExecResult, r.ok = false → strIncludes r.stderr "already cached" = true →
        cacheStep r = Except.ok ("", r.stderr)) ∧
    (∀ r : ExecResult, r.ok = false → strIncludes r.stderr "already cached" = false →
        cacheStep r = Except.error (Exc.cmdFail r)) ∧
    (∀ (cfg : Config) (req : Request) (env : Env) (o : Nat → ExecResult) (tok : String),
      ¬(req.name = "") → ¬(req.symbol = "") → ¬(req.initialSupply = 0) →
      ¬(env.privateKey = "") → ¬(env.rpcEndpoint = "") →
      (o 0).ok = true →
      extractContractAddress ((o 0).stdout ++ "\n" ++ (o 0).stderr) = some tok →
      (o 1).ok = false → strIncludes (o 1).stderr "ProgramUpToDate" = true →
      (o 2).ok = true → (o 3).ok = true → (o 5).ok = true →
      ¬(jsTrim ((o 5).stdout ++ "\n" ++ (o 5).stderr) = "") →
      ¬(jsTrim ((o 5).stdout ++ "\n" ++ (o 5).stderr) = "0x") →
      ¬((jsTrim ((o 5).stdout ++ "\n" ++ (o 5).stderr)).length ≤ 2) →
      strIncludes ((o 7).stdout ++ "\n" ++ (o 7).stderr) "TokenNotFound" = true →
      (o 9).ok = true →
      (sjsHandler cfg req env o).1 =
        Response.success tok ((o 0).stdout ++ "\n" ++ (o 0).stderr)
          ("" ++ "\n" ++ (o 1).stderr)
          ((o 2).stdout ++ "\n" ++ (o 2).stderr)
          ((o 3).stdout ++ "\n" ++ (o 3).stderr)
          ((o 9).stdout ++ "\n" ++ (o 9).stderr)) ∧
    (∀ (cfg : Config) (req : Request) (env : Env) (o : Nat → ExecResult) (tok : String),
      ¬(req.name = "") → ¬(req.symbol = "") → ¬(req.initialSupply = 0) →
      ¬(env.privateKey = "") → ¬(env.rpcEndpoint = "") →
      (o 0).ok = true →
      extractContractAddress ((o 0).stdout ++ "\n" ++ (o 0).stderr) = some tok →
      (o 1).ok = false → strIncludes (o 1).stderr "ProgramUpToDate" = false →
      sjsHandler cfg req env o =
        (Response.pipelineError (Exc.cmdFail (o 1)),
         [Step.mk (shellWrap (deployCmd cfg.erc20Dir env.privateKey env.rpcEndpoint)) true,
          Step.mk (shellWrap (activateCmd cfg.erc20Dir tok env.privateKey env.rpcEndpoint)) true])) := by
  refine ⟨?_, ?_, ?_, ?_, ?_, ?_⟩
  · intro r h1 h2; simp [activateStep, h1, h2]
  · intro r h1 h2; simp [activateStep, h1, h2]
  · intro r h1 h2; simp [cacheStep, h1, h2]
  · intro r h1 h2; simp [cacheStep, h1, h2]
  · intro cfg req env o tok hn hs hi hpk hrpc h0 hex h1 hb h2 h3 h5 hc1 hc2 hc3 h7 h9
    have hfa := resolveFactoryAddress_ne_empty req.factoryAddress env.factoryAddressEnv
    simp [sjsHandler, hn, hs, hi, hpk, hrpc, h0, hex, activateStep, cacheStep,
      h1, hb, h2, h3, h5, hfa, hc1, hc2, hc3, h7, h9]
  · intro cfg req env o tok hn hs hi hpk hrpc h0 hex h1 hb
    simp [sjsHandler, hn, hs, hi, hpk, hrpc, h0, hex, activateStep, h1, hb]

/-- Witness instantiating `C4_amended_benign_patterns` on concrete step
results. -/
theorem C4_witness :
    activateStep ⟨false, "", "ProgramUpToDate()", "exit 1"⟩
      = Except.ok ("", "ProgramUpToDate()") ∧
    cacheStep ⟨false, "", "contract already cached", "exit 1"⟩
      = Except.ok ("", "contract already cached") ∧
    activateStep ⟨false, "", "out of gas", "exit 1"⟩
      = Except.error (Exc.cmdFail ⟨false, "", "out of gas", "exit 1"⟩) :=
  ⟨C4_amended_benign_patterns.1 _ rfl (by decide),
   C4_amended_benign_patterns.2.2.1 _ rfl (by decide),
   C4_amended_benign_patterns.2.1 _ rfl (by decide)⟩

/-- C5 (amended, `server.js` behaviour): when the factory code check command
succeeds but its combined trimmed output is the bare string `"0x"`, the
`server.js` pipeline aborts with the factory-verification failure — whose
message interpolates the factory address — after exactly the deploy, activate,
cache, init, factory-activate and code-check commands; in particular the
registration command is never dispatched.  (The `p000` iteration instead only
logs this condition and still attempts registration, see the
counterexample.) -/
theorem C5_sjs_bare_factory_code_aborts
    (cfg : Config) (req : Request) (env : Env) (o : Nat → ExecResult)
    (tok fa : String)
    (hn : ¬(req.name = "")) (hs : ¬(req.symbol = "")) (hi : ¬(req.initialSupply = 0))
    (hpk : ¬(env.privateKey = "")) (hrpc : ¬(env.rpcEndpoint = ""))
    (hfa : resolveFactoryAddress req.factoryAddress env.factoryAddressEnv = fa)
    (h0 : (o 0).ok = true)
    (hex : extractContractAddress ((o 0).stdout ++ "\n" ++ (o 0).stderr) = some tok)
    (h1 : (o 1).ok = true) (h2 : (o 2).ok = true) (h3 : (o 3).ok = true)
    (h5 : (o 5).ok = true)
    (hbare : jsTrim ((o 5).stdout ++ "\n" ++ (o 5).stderr) = "0x") :
    sjsHandler cfg req env o =
      (Response.pipelineError (Exc.jsError (factoryVerifyFailMsg fa (noCodeMsg fa))),
        [Step.mk (shellWrap (deployCmd cfg.erc20Dir env.privateKey env.rpcEndpoint)) true,
         Step.mk (shellWrap (activateCmd cfg.erc20Dir tok env.privateKey env.rpcEndpoint)) true,
         Step.mk (shellWrap (cacheCmd cfg.erc20Dir tok env.privateKey env.rpcEndpoint)) true,
         Step.mk (shellWrap (initCmd cfg.erc20Dir env.privateKey env.rpcEndpoint tok req.name req.symbol req.initialSupply)) true,
         Step.mk (shellWrap (activateCmd cfg.factoryDir fa env.privateKey env.rpcEndpoint)) true,
         Step.mk (shellWrap (codeCheckCmd fa env.rpcEndpoint)) true]) ∧
    (∃ p q, factoryVerifyFailMsg fa (noCodeMsg fa) = p ++ (fa ++ q)) ∧
    httpStatus (sjsHandler cfg req env o).1 = 500 := by
  have hfane : ¬(fa = "") := by
    rw [← hfa]; exact resolveFactoryAddress_ne_empty _ _
  have main : sjsHandler cfg req env o =
      (Response.pipelineError (Exc.jsError (factoryVerifyFailMsg fa (noCodeMsg fa))),
        [Step.mk (shellWrap (deployCmd cfg.erc20Dir env.privateKey env.rpcEndpoint)) true,
         Step.mk (shellWrap (activateCmd cfg.erc20Dir tok env.privateKey env.rpcEndpoint)) true,
         Step.mk (shellWrap (cacheCmd cfg.erc20Dir tok env.privateKey env.rpcEndpoint)) true,
         Step.mk (shellWrap (initCmd cfg.erc20Dir env.privateKey env.rpcEndpoint tok req.name req.symbol req.initialSupply)) true,
         Step.mk (shellWrap (activateCmd cfg.factoryDir fa env.privateKey env.rpcEndpoint)) true,
         Step.mk (shellWrap (codeCheckCmd fa env.rpcEndpoint)) true]) := by
    simp [sjsHandler, hn, hs, hi, hpk, hrpc, h0, hex, activateStep, cacheStep,
      h1, h2, h3, h5, hfa, hfane, hbare]
  refine ⟨main, ⟨"Factory contract verification failed at ",
    ": " ++ (noCodeMsg fa ++ ". Please ensure the factory contract is deployed and activated."),
    rfl⟩, by rw [main]; rfl⟩

/-- Oracle for the C5 witness: all steps succeed but the factory code check
prints the bare `0x`. -/
def oC5 : Nat → ExecResult := oracleOf
  [okR "Deployed code at address 0x1111111111111111111111111111111111111111" "",
   okR "activated" "", okR "cached" "", okR "init ok" "",
   okR "" "", okR "0x" ""] (okR "" "")

/-- Witness instantiating `C5_sjs_bare_factory_code_aborts` on a concrete
run. -/
theorem C5_witness :
    sjsHandler cfgW reqW envW oC5 =
      (Response.pipelineError (Exc.jsError
          (factoryVerifyFailMsg FACTORY_ADDRESS (noCodeMsg FACTORY_ADDRESS))),
        [Step.mk (shellWrap (deployCmd cfgW.erc20Dir envW.privateKey envW.rpcEndpoint)) true,
         Step.mk (shellWrap (activateCmd cfgW.erc20Dir "0x1111111111111111111111111111111111111111" envW.privateKey envW.rpcEndpoint)) true,
         Step.mk (shellWrap (cacheCmd cfgW.erc20Dir "0x1111111111111111111111111111111111111111" envW.privateKey envW.rpcEndpoint)) true,
         Step.mk (shellWrap (initCmd cfgW.erc20Dir envW.privateKey envW.rpcEndpoint "0x1111111111111111111111111111111111111111" reqW.name reqW.symbol reqW.initialSupply)) true,
         Step.mk (shellWrap (activateCmd cfgW.factoryDir FACTORY_ADDRESS envW.privateKey envW.rpcEndpoint)) true,
         Step.mk (shellWrap (codeCheckCmd FACTORY_ADDRESS envW.rpcEndpoint)) true]) ∧
    (∃ p q, factoryVerifyFailMsg FACTORY_ADDRESS (noCodeMsg FACTORY_ADDRESS) = p ++ (FACTORY_ADDRESS ++ q)) ∧
    httpStatus (sjsHandler cfgW reqW envW oC5).1 = 500 :=
  C5_sjs_bare_factory_code_aborts cfgW reqW envW oC5
    "0x1111111111111111111111111111111111111111" FACTORY_ADDRESS
    (by decide) (by decide) (by decide) (by decide) (by decide) (by decide)
    (by decide) (by decide) (by decide) (by decide) (by decide) (by decide)
    (by decide)

/-- Oracle for the C5/C7 counterexample runs on the `p000` handler: every
command succeeds and the factory code check prints the bare `0x`. -/
def oBare : Nat → ExecResult := oracleOf
  [okR "Deployed code at address 0x1111111111111111111111111111111111111111" "",
   okR "activated" "", okR "cached" "", okR "init ok" "",
   okR "" "", okR "0x" "", okR "registered" ""] (okR "" "")

/-- C5 counterexample: in the `p000` iteration of the handler, a factory code
check that returns the bare `0x` does not abort the pipeline — the condition
is caught and only logged (`p000` lines 232-235), the registration command is
still dispatched, and the request completes with HTTP 200. -/
theorem C5_counterexample :
    jsTrim ((oBare 5).stdout ++ "\n" ++ (oBare 5).stderr) = "0x" ∧
    httpStatus (p000Handler cfgW reqW envW oBare).1 = 200 ∧
    cmdsOf (p000Handler cfgW reqW envW oBare).2 =
      [shellWrap (deployCmd "erc20-token" "PK" "RPC"),
       shellWrap (activateCmd "erc20-token" "0x1111111111111111111111111111111111111111" "PK" "RPC"),
       shellWrap (cacheCmd "erc20-token" "0x1111111111111111111111111111111111111111" "PK" "RPC"),
       shellWrap (p000_initCmd "erc20-token" "PK" "RPC" "0x1111111111111111111111111111111111111111" "Test" "TST" 1000),
       shellWrap (activateCmd "token-factory" FACTORY_ADDRESS "PK" "RPC"),
       shellWrap (codeCheckCmd FACTORY_ADDRESS "RPC"),
       shellWrap (p000_registerCmd "PK" "RPC" FACTORY_ADDRESS
         "0x1111111111111111111111111111111111111111" "Test" "TST" (initialSupplyWei 1000))] := by
  refine ⟨by decide, by decide, by decide⟩

/-- C6 (amended, `server.js` behaviour): when the `get_token_info` pre-check
call succeeds and its combined output contains neither `"TokenNotFound"` nor
`"error"` — the code's criterion for the factory's record confirming prior
registration — the pipeline aborts with the distinct already-registered
message, which interpolates the token address, after exactly the deploy,
activate, cache, init, factory-activate, code-check, view-probe and
token-check commands; the signed `register_token` send (and the simulation)
is never dispatched.  (The `p000` iteration skips this pre-check entirely and
always attempts the signed send, see the counterexample.) -/
theorem C6_sjs_duplicate_precheck_aborts
    (cfg : Config) (req : Request) (env : Env) (o : Nat → ExecResult)
    (tok fa : String)
    (hn : ¬(req.name = "")) (hs : ¬(req.symbol = "")) (hi : ¬(req.initialSupply = 0))
    (hpk : ¬(env.privateKey = "")) (hrpc : ¬(env.rpcEndpoint = ""))
    (hfa : resolveFactoryAddress req.factoryAddress env.factoryAddressEnv = fa)
    (h0 : (o 0).ok = true)
    (hex : extractContractAddress ((o 0).stdout ++ "\n" ++ (o 0).stderr) = some tok)
    (h1 : (o 1).ok = true) (h2 : (o 2).ok = true) (h3 : (o 3).ok = true)
    (h5 : (o 5).ok = true)
    (hc1 : ¬(jsTrim ((o 5).stdout ++ "\n" ++ (o 5).stderr) = ""))
    (hc2 : ¬(jsTrim ((o 5).stdout ++ "\n" ++ (o 5).stderr) = "0x"))
    (hc3 : ¬((jsTrim ((o 5).stdout ++ "\n" ++ (o 5).stderr)).length ≤ 2))
    (h7 : (o 7).ok = true)
    (h7a : strIncludes ((o 7).stdout ++ "\n" ++ (o 7).stderr) "TokenNotFound" = false)
    (h7b : strIncludes ((o 7).stdout ++ "\n" ++ (o 7).stderr) "error" = false) :
    sjsHandler cfg req env o =
      (Response.pipelineError (Exc.jsError (alreadyRegisteredMsg tok)),
        [Step.mk (shellWrap (deployCmd cfg.erc20Dir env.privateKey env.rpcEndpoint)) true,
         Step.mk (shellWrap (activateCmd cfg.erc20Dir tok env.privateKey env.rpcEndpoint)) true,
         Step.mk (shellWrap (cacheCmd cfg.erc20Dir tok env.privateKey env.rpcEndpoint)) true,
         Step.mk (shellWrap (initCmd cfg.erc20Dir env.privateKey env.rpcEndpoint tok req.name req.symbol req.initialSupply)) true,
         Step.mk (shellWrap (activateCmd cfg.factoryDir fa env.privateKey env.rpcEndpoint)) true,
         Step.mk (shellWrap (codeCheckCmd fa env.rpcEndpoint)) true,
         Step.mk (shellWrap (testCallCmd fa env.rpcEndpoint)) true,
         Step.mk (shellWrap (checkTokenCmd env.rpcEndpoint fa tok)) true]) ∧
    (∃ p q, alreadyRegisteredMsg tok = p ++ (tok ++ q)) ∧
    httpStatus (sjsHandler cfg req env o).1 = 500 := by
  have hfane : ¬(fa = "") := by
    rw [← hfa]; exact resolveFactoryAddress_ne_empty _ _
  have main : sjsHandler cfg req env o =
      (Response.pipelineError (Exc.jsError (alreadyRegisteredMsg tok)),
        [Step.mk (shellWrap (deployCmd cfg.erc20Dir env.privateKey env.rpcEndpoint)) true,
         Step.mk (shellWrap (activateCmd cfg.erc20Dir tok env.privateKey env.rpcEndpoint)) true,
         Step.mk (shellWrap (cacheCmd cfg.erc20Dir tok env.privateKey env.rpcEndpoint)) true,
         Step.mk (shellWrap (initCmd cfg.erc20Dir env.privateKey env.rpcEndpoint tok req.name req.symbol req.initialSupply)) true,
         Step.mk (shellWrap (activateCmd cfg.factoryDir fa env.privateKey env.rpcEndpoint)) true,
         Step.mk (shellWrap (codeCheckCmd fa env.rpcEndpoint)) true,
         Step.mk (shellWrap (testCallCmd fa env.rpcEndpoint)) true,
         Step.mk (shellWrap (checkTokenCmd env.rpcEndpoint fa tok)) true]) := by
    simp [sjsHandler, hn, hs, hi, hpk, hrpc, h0, hex, activateStep, cacheStep,
      h1, h2, h3, h5, hfa, hfane, hc1, hc2, hc3, h7, h7a, h7b]
  refine ⟨main, ⟨"Token ",
    " is already registered in factory. Cannot register the same token twice.",
    rfl⟩, by rw [main]; rfl⟩

/-- Oracle for the C6 witness: the factory's record reports the token (the
`get_token_info` call succeeds with a data word, no `TokenNotFound`, no
`error`). -/
def oC6 : Nat → ExecResult := oracleOf
  [okR "Deployed code at address 0x1111111111111111111111111111111111111111" "",
   okR "activated" "", okR "cached" "", okR "init ok" "",
   okR "" "", okR "0xcafe60de" "", okR "0x0000000000000001" "",
   okR "0x00000001 Test TST 1000" ""] (okR "" "")

/-- Witness instantiating `C6_sjs_duplicate_precheck_aborts` on a concrete
run. -/
theorem C6_witness :
    sjsHandler cfgW reqW envW oC6 =
      (Response.pipelineError (Exc.jsError
          (alreadyRegisteredMsg "0x1111111111111111111111111111111111111111")),
        [Step.mk (shellWrap (deployCmd cfgW.erc20Dir envW.privateKey envW.rpcEndpoint)) true,
         Step.mk (shellWrap (activateCmd cfgW.erc20Dir "0x1111111111111111111111111111111111111111" envW.privateKey envW.rpcEndpoint)) true,
         Step.mk (shellWrap (cacheCmd cfgW.erc20Dir "0x1111111111111111111111111111111111111111" envW.privateKey envW.rpcEndpoint)) true,
         Step.mk (shellWrap (initCmd cfgW.erc20Dir envW.privateKey envW.rpcEndpoint "0x1111111111111111111111111111111111111111" reqW.name reqW.symbol reqW.initialSupply)) true,
         Step.mk (shellWrap (activateCmd cfgW.factoryDir FACTORY_ADDRESS envW.privateKey envW.rpcEndpoint)) true,
         Step.mk (shellWrap (codeCheckCmd FACTORY_ADDRESS envW.rpcEndpoint)) true,
         Step.mk (shellWrap (testCallCmd FACTORY_ADDRESS envW.rpcEndpoint)) true,
         Step.mk (shellWrap (checkTokenCmd envW.rpcEndpoint FACTORY_ADDRESS "0x1111111111111111111111111111111111111111")) true]) ∧
    (∃ p q, alreadyRegisteredMsg "0x1111111111111111111111111111111111111111"
        = p ++ ("0x1111111111111111111111111111111111111111" ++ q)) ∧
    httpStatus (sjsHandler cfgW reqW envW oC6).1 = 500 :=
  C6_sjs_duplicate_precheck_aborts cfgW reqW envW oC6
    "0x1111111111111111111111111111111111111111" FACTORY_ADDRESS
    (by decide) (by decide) (by decide) (by decide) (by decide) (by decide)
    (by decide) (by decide) (by decide) (by decide) (by decide) (by decide)
    (by decide) (by decide) (by decide) (by decide) (by decide) (by decide)

/-- Message carried by a pipeline error that was a thrown `Error`. -/
def respMsg : Response → String
  | Response.pipelineError (Exc.jsError m) => m
  | _ => ""

/-- Does some dispatched command contain the given text? -/
def hasCmdWith (l : List String) (needle : String) : Bool :=
  l.any (fun c => strIncludes c needle)

/-- Oracle for the C6 counterexample run on the `p000` handler: the token is
already registered, so the registration send reverts on chain. -/
def oDup : Nat → ExecResult := oracleOf
  [okR "Deployed code at address 0x1111111111111111111111111111111111111111" "",
   okR "activated" "", okR "cached" "", okR "init ok" "",
   okR "" "", okR "0xcafe60de" "",
   failR "" "server returned an error response: execution reverted" "Command failed: cast send"]
  (okR "" "")

/-- C6 counterexample: the `p000` iteration never consults the factory's
record (`get_token_info` is dispatched by no step: "Skip token registration
check", `p000` lines 237-238), attempts the signed `register_token` send even
though the token is already registered, and reports the chain-level revert
through the generic registration failure — its message lacks the distinct
"Cannot register the same token twice." wording, mentioning duplicate
registration only inside a speculative possible-causes list. -/
theorem C6_counterexample :
    hasCmdWith (cmdsOf (p000Handler cfgW reqW envW oDup).2) "get_token_info" = false ∧
    hasCmdWith (cmdsOf (p000Handler cfgW reqW envW oDup).2) "register_token" = true ∧
    httpStatus (p000Handler cfgW reqW envW oDup).1 = 500 ∧
    strIncludes (respMsg (p000Handler cfgW reqW envW oDup).1)
      "Token registration FAILED" = true ∧
    strIncludes (respMsg (p000Handler cfgW reqW envW oDup).1)
      "Cannot register the same token twice." = false ∧
    strIncludes (respMsg (p000Handler cfgW reqW envW oDup).1)
      "Possible causes" = true := by
  refine ⟨by decide, by decide, by decide, by decide, by decide, by decide⟩

/-- C7 (amended, `server.js` behaviour): in `server.js` every external command
of one request is awaited to completion before the handler proceeds — the
dispatched-step trace never contains a non-awaited entry, for every request,
environment and oracle. -/
theorem C7_sjs_all_steps_awaited
    (cfg : Config) (req : Request) (env : Env) (o : Nat → ExecResult) :
    allAwaited (sjsHandler cfg req env o).2 = true := by
  by_cases hA : req.name = "" ∨ req.symbol = "" ∨ req.initialSupply = 0
  · simp [sjsHandler, hA, allAwaited]
  · by_cases hB : env.privateKey = "" ∨ env.rpcEndpoint = ""
    · simp [sjsHandler, hA, hB, allAwaited]
    · by_cases hC : (o 0).ok = false
      · simp [sjsHandler, hA, hB, hC, allAwaited]
      · cases hex : extractContractAddress ((o 0).stdout ++ "\n" ++ (o 0).stderr) with
        | none => simp [sjsHandler, hA, hB, hC, hex, allAwaited]
        | some tok =>
          cases hact : activateStep (o 1) with
          | error e => simp [sjsHandler, hA, hB, hC, hex, hact, allAwaited]
          | ok act =>
            cases hcac : cacheStep (o 2) with
            | error e => simp [sjsHandler, hA, hB, hC, hex, hact, hcac, allAwaited]
            | ok cac =>
              by_cases h3 : (o 3).ok = false
              · simp [sjsHandler, hA, hB, hC, hex, hact, hcac, h3, allAwaited]
              · by_cases hfa : resolveFactoryAddress req.factoryAddress env.factoryAddressEnv = ""
                · simp [sjsHandler, hA, hB, hC, hex, hact, hcac, h3, hfa, allAwaited]
                · by_cases h5 : (o 5).ok = false
                  · simp [sjsHandler, hA, hB, hC, hex, hact, hcac, h3, hfa, h5, allAwaited]
                  · by_cases hbare : jsTrim ((o 5).stdout ++ "\n" ++ (o 5).stderr) = "" ∨ jsTrim ((o 5).stdout ++ "\n" ++ (o 5).stderr) = "0x" ∨ (jsTrim ((o 5).stdout ++ "\n" ++ (o 5).stderr)).length ≤ 2
                    · simp [sjsHandler, hA, hB, hC, hex, hact, hcac, h3, hfa, h5, hbare, allAwaited]
                    · by_cases hdup : ((o 7).ok && !(strIncludes ((o 7).stdout ++ "\n" ++ (o 7).stderr) "TokenNotFound") && !(strIncludes ((o 7).stdout ++ "\n" ++ (o 7).stderr) "error")) = true
                      · simp [sjsHandler, hA, hB, hC, hex, hact, hcac, h3, hfa, h5, hbare, hdup, allAwaited]
                      · by_cases h9 : (o 9).ok = false
                        · simp [sjsHandler, hA, hB, hC, hex, hact, hcac, h3, hfa, h5, hbare, hdup, h9, allAwaited]
                        · simp [sjsHandler, hA, hB, hC, hex, hact, hcac, h3, hfa, h5, hbare, hdup, h9, allAwaited]

/-- C7 counterexample: in the `p000` iteration the factory-activation command
(the fifth dispatched command) is dispatched fire-and-forget
(`runCommand(factoryActivateShell, ...).catch(...)` with no `await`, `p000`
lines 201-212): the factory code-check command is built and dispatched without
waiting for the factory activation to complete, so not every step's command
completes before the next step's command runs. -/
theorem C7_counterexample :
    awaitedOf (p000Handler cfgW reqW envW oBare).2 =
      [true, true, true, true, false, true, true] ∧
    (p000Handler cfgW reqW envW oBare).2.getD 4 (Step.mk "" true) =
      Step.mk (shellWrap (activateCmd "token-factory" FACTORY_ADDRESS "PK" "RPC")) false ∧
    allAwaited (p000Handler cfgW reqW envW oBare).2 = false := by
  refine ⟨by decide, by decide, by decide⟩

/-- A rethrown activation failure is always the rejected command value. -/
theorem activateStep_error (r : ExecResult) (e : Exc)
    (h : activateStep r = Except.error e) : e = Exc.cmdFail r := by
  unfold activateStep at h
  split at h
  · exact absurd h (by simp)
  · split at h
    · exact absurd h (by simp)
    · simpa using h.symm

/-- A rethrown cache-bid failure is always the rejected command value. -/
theorem cacheStep_error (r : ExecResult) (e : Exc)
    (h : cacheStep r = Except.error e) : e = Exc.cmdFail r := by
  unfold cacheStep at h
  split at h
  · exact absurd h (by simp)
  · split at h
    · exact absurd h (by simp)
    · simpa using h.symm

/-- The factory-verification failure message never coincides with the
factory-address guard message (their first characters differ). -/
theorem factoryVerifyFailMsg_ne_guardMsg (fa x : String) :
    ¬(factoryVerifyFailMsg fa x = "factoryAddress is required for token registration") := by
  intro h
  have hd : (factoryVerifyFailMsg fa x).data.head?
      = ("factoryAddress is required for token registration" : String).data.head? := by rw [h]
  have h1 : (factoryVerifyFailMsg fa x).data.head? = some 'F' := rfl
  have h2 : ("factoryAddress is required for token registration" : String).data.head? = some 'f' := rfl
  rw [h1, h2] at hd
  exact absurd hd (by decide)

/-- The duplicate-registration message never coincides with the
factory-address guard message. -/
theorem alreadyRegisteredMsg_ne_guardMsg (tok : String) :
    ¬(alreadyRegisteredMsg tok = "factoryAddress is required for token registration") := by
  intro h
  have hd : (alreadyRegisteredMsg tok).data.head?
      = ("factoryAddress is required for token registration" : String).data.head? := by rw [h]
  have h1 : (alreadyRegisteredMsg tok).data.head? = some 'T' := rfl
  have h2 : ("factoryAddress is required for token registration" : String).data.head? = some 'f' := rfl
  rw [h1, h2] at hd
  exact absurd hd (by decide)

/-- The registration-failure message never coincides with the factory-address
guard message. -/
theorem registerFailMsg_ne_guardMsg (fa tok name symbol : String) (n : Nat) (r : ExecResult) :
    ¬(registerFailMsg fa tok name symbol n r = "factoryAddress is required for token registration") := by
  intro h
  have hd : (registerFailMsg fa tok name symbol n r).data.head?
      = ("factoryAddress is required for token registration" : String).data.head? := by rw [h]
  have h1 : (registerFailMsg fa tok name symbol n r).data.head? = some 'T' := rfl
  have h2 : ("factoryAddress is required for token registration" : String).data.head? = some 'f' := rfl
  rw [h1, h2] at hd
  exact absurd hd (by decide)

/-- C10: after the resolution at the start of the handler the factory address
is never empty (the truthy body value, else the truthy environment variable,
else the non-empty compiled-in constant), so the
`"factoryAddress is required for token registration"` guard of `server.js`
line 177-179 can fire for no request, environment or oracle: the handler never
produces that thrown error. -/
theorem C10_factory_guard_unreachable :
    (∀ body envv : Option String, ¬(resolveFactoryAddress body envv = "")) ∧
    (∀ (cfg : Config) (req : Request) (env : Env) (o : Nat → ExecResult),
      ¬((sjsHandler cfg req env o).1 =
        Response.pipelineError (Exc.jsError "factoryAddress is required for token registration"))) := by
  refine ⟨resolveFactoryAddress_ne_empty, ?_⟩
  intro cfg req env o
  by_cases hA : req.name = "" ∨ req.symbol = "" ∨ req.initialSupply = 0
  · simp [sjsHandler, hA]
  · by_cases hB : env.privateKey = "" ∨ env.rpcEndpoint = ""
    · simp [sjsHandler, hA, hB]
    · by_cases hC : (o 0).ok = false
      · simp [sjsHandler, hA, hB, hC]
      · cases hex : extractContractAddress ((o 0).stdout ++ "\n" ++ (o 0).stderr) with
        | none => simp [sjsHandler, hA, hB, hC, hex]
        | some tok =>
          cases hact : activateStep (o 1) with
          | error e =>
            have he := activateStep_error (o 1) e hact
            subst he
            simp [sjsHandler, hA, hB, hC, hex, hact]
          | ok act =>
            cases hcac : cacheStep (o 2) with
            | error e =>
              have he := cacheStep_error (o 2) e hcac
              subst he
              simp [sjsHandler, hA, hB, hC, hex, hact, hcac]
            | ok cac =>
              by_cases h3 : (o 3).ok = false
              · simp [sjsHandler, hA, hB, hC, hex, hact, hcac, h3]
              · by_cases hfa : resolveFactoryAddress req.factoryAddress env.factoryAddressEnv = ""
                · exact absurd hfa (resolveFactoryAddress_ne_empty _ _)
                · by_cases h5 : (o 5).ok = false
                  · simp [sjsHandler, hA, hB, hC, hex, hact, hcac, h3, hfa, h5,
                      factoryVerifyFailMsg_ne_guardMsg]
                  · by_cases hbare : jsTrim ((o 5).stdout ++ "\n" ++ (o 5).stderr) = "" ∨ jsTrim ((o 5).stdout ++ "\n" ++ (o 5).stderr) = "0x" ∨ (jsTrim ((o 5).stdout ++ "\n" ++ (o 5).stderr)).length ≤ 2
                    · simp [sjsHandler, hA, hB, hC, hex, hact, hcac, h3, hfa, h5, hbare,
                        factoryVerifyFailMsg_ne_guardMsg]
                    · by_cases hdup : ((o 7).ok && !(strIncludes ((o 7).stdout ++ "\n" ++ (o 7).stderr) "TokenNotFound") && !(strIncludes ((o 7).stdout ++ "\n" ++ (o 7).stderr) "error")) = true
                      · simp [sjsHandler, hA, hB, hC, hex, hact, hcac, h3, hfa, h5, hbare, hdup,
                          alreadyRegisteredMsg_ne_guardMsg]
                      · by_cases h9 : (o 9).ok = false
                        · simp [sjsHandler, hA, hB, hC, hex, hact, hcac, h3, hfa, h5, hbare, hdup, h9,
                            registerFailMsg_ne_guardMsg]
                        · simp [sjsHandler, hA, hB, hC, hex, hact, hcac, h3, hfa, h5, hbare, hdup, h9]

/-- Witness instantiating `C10_factory_guard_unreachable` on concrete
inputs. -/
theorem C10_witness :
    ¬(resolveFactoryAddress (some "") none = "") ∧
    ¬((sjsHandler cfgW reqW envW oC3).1 =
      Response.pipelineError (Exc.jsError "factoryAddress is required for token registration")) :=
  ⟨C10_factory_guard_unreachable.1 (some "") none,
   C10_factory_guard_unreachable.2 cfgW reqW envW oC3⟩
